import Mathlib

/-!
Verification of the execution admission gateway embedded from
`custom-ui/backend/server.js`: the JWT credential cache (`getJWTToken`),
the axios 401 response interceptor, the admission gate (`isAnyDagRunning`)
and the gate-checked trigger handler (`POST /api/dags/:dagId/dagRuns`).

Timestamps are modelled as `Int` milliseconds since the epoch (JS `Date`
arithmetic). Upstream run states are kept as the raw strings the code
compares against. Nullable JSON fields are `Option`s; JS truthiness tests
on them are modelled explicitly where the code performs them.
-/

namespace FaultGateway

/-- One Airflow DAG-run record, as consumed by the backend
(`dag_run` objects from `GET /dags/~/dagRuns`). -/
structure DagRun where
  dag_id : String
  dag_run_id : String
  state : String
  start_date : Option Int
  end_date : Option Int
  logical_date : Option Int
deriving DecidableEq, Repr

/-- `dagRun.state === 'running' || dagRun.state === 'queued'`
(the active-state filter in `isAnyDagRunning`). -/
def isActiveRun (r : DagRun) : Bool :=
  r.state == "running" || r.state == "queued"

/-- `dagRun.state === 'success' || ... || dagRun.state === 'upstream_failed'`
(the completed-state filter in `isAnyDagRunning`). -/
def isCompletedRun (r : DagRun) : Bool :=
  r.state == "success" || r.state == "failed" ||
  r.state == "skipped" || r.state == "upstream_failed"

/-- `const cooldownPeriod = 15 * 60 * 1000` — 15 minutes in milliseconds. -/
def cooldownPeriod : Int := 15 * 60 * 1000

/-- `Math.floor(ms / 1000 / 60)`: floor division of a millisecond duration
into whole minutes (exact in the value range the gate handles). -/
def jsFloorDivMinutes (ms : Int) : Int := Int.fdiv ms 60000

/-- `Math.ceil(ms / 1000 / 60)`: ceiling division of a millisecond duration
into whole minutes (exact in the value range the gate handles). -/
def jsCeilDivMinutes (ms : Int) : Int := -(Int.fdiv (-ms) 60000)

/-- The `cooldownInfo` object built in the cooldown branch of
`isAnyDagRunning`. -/
structure CooldownInfo where
  last_dag_id : String
  last_dag_state : String
  end_date : Int
  minutes_since_completion : Int
  remaining_cooldown_minutes : Int
deriving DecidableEq, Repr

/-- The result object of `isAnyDagRunning`. Keys absent in a given JS
return object are modelled by their falsy defaults (`false` / `none`),
matching how the callers read them (`runningStatus.inCooldown || false`). -/
structure RunningStatus where
  isRunning : Bool
  count : Nat
  runningDags : List DagRun
  inCooldown : Bool
  cooldownInfo : Option CooldownInfo
  reason : Option String
deriving DecidableEq, Repr

/-- The final `return { isRunning: false, count: 0, runningDags: [],
inCooldown: false }` object of `isAnyDagRunning` (also the fail-open
return of its catch block). -/
def notRunningStatus : RunningStatus :=
  { isRunning := false, count := 0, runningDags := [],
    inCooldown := false, cooldownInfo := none, reason := none }

/-- The cooldown section of `isAnyDagRunning`: takes `completedDagRuns`
(the list already filtered to terminal states, in the upstream's
`-start_date` order) and the current time; `completedDagRuns[0]` is
`mostRecentCompleted`. -/
def cooldownCheck (completedDagRuns : List DagRun) (now : Int) : RunningStatus :=
  match completedDagRuns with
  | [] => notRunningStatus
  | mostRecentCompleted :: _ =>
    match mostRecentCompleted.end_date with
    | none => notRunningStatus
    | some endTime =>
      let timeSinceCompletion : Int := now - endTime
      if timeSinceCompletion < cooldownPeriod then
        { isRunning := true, count := 0, runningDags := [],
          inCooldown := true,
          cooldownInfo := some
            { last_dag_id := mostRecentCompleted.dag_id,
              last_dag_state := mostRecentCompleted.state,
              end_date := endTime,
              minutes_since_completion := jsFloorDivMinutes timeSinceCompletion,
              remaining_cooldown_minutes :=
                jsCeilDivMinutes (cooldownPeriod - timeSinceCompletion) },
          reason := some "cooldown" }
      else notRunningStatus

/-- The body of `isAnyDagRunning` after the dag-run fetch succeeded:
filter active runs; if any, report them; otherwise run the cooldown
check over the completed runs. `allDagRuns` is the upstream response
list (ordered by `-start_date`). -/
def isAnyDagRunningPure (allDagRuns : List DagRun) (now : Int) : RunningStatus :=
  let activeDagRuns := allDagRuns.filter isActiveRun
  if activeDagRuns.length > 0 then
    { isRunning := true, count := activeDagRuns.length,
      runningDags := activeDagRuns, inCooldown := false,
      cooldownInfo := none, reason := some "running" }
  else
    cooldownCheck (allDagRuns.filter isCompletedRun) now

/-- `isAnyDagRunning` including its try/catch: if the dag-run fetch
fails, the catch block returns the not-running object (fail open). -/
def isAnyDagRunning (fetchResult : Except String (List DagRun)) (now : Int) :
    RunningStatus :=
  match fetchResult with
  | .ok allDagRuns => isAnyDagRunningPure allDagRuns now
  | .error _ => notRunningStatus

/-! ## Credential Manager: `getJWTToken` and the module-level token cache -/

/-- The module-level mutable cache `let jwtToken = null; let tokenExpiry = null`. -/
structure TokenState where
  jwtToken : Option String
  tokenExpiry : Option Int
deriving DecidableEq, Repr

/-- `tokenExpiry = Date.now() + (23 * 60 * 60 * 1000)` — 23 hours after
acquisition. -/
def fetchedExpiry (now : Int) : Int := now + 23 * 60 * 60 * 1000

/-- `getJWTToken`: return the cached token when
`jwtToken && tokenExpiry && Date.now() < tokenExpiry` (JS truthiness: a
present token must be a non-empty string, a present expiry non-zero);
otherwise exchange credentials (`fetchToken` models the
`POST /auth/token` call) and cache the result. On fetch failure the
error is rethrown and the cache is left as it was. Returns the token
together with the updated cache. -/
def getJWTToken (st : TokenState) (now : Int) (fetchToken : Except Unit String) :
    Except Unit (String × TokenState) :=
  let freshFetch : Except Unit (String × TokenState) :=
    match fetchToken with
    | .ok tok =>
      .ok (tok, { jwtToken := some tok, tokenExpiry := some (fetchedExpiry now) })
    | .error e => .error e
  match st.jwtToken, st.tokenExpiry with
  | some t, some e => if t ≠ "" ∧ e ≠ 0 ∧ now < e then .ok (t, st) else freshFetch
  | some _, none => freshFetch
  | none, _ => freshFetch

/-! ## Upstream Client: the axios response interceptor (401 retry-once) -/

/-- An upstream HTTP outcome as axios presents it: a 2xx response with a
body, or a rejected response carrying its status. -/
inductive HttpResp where
  | ok (body : String)
  | err (status : Nat)
deriving DecidableEq, Repr

/-- What a call through `airflowAPI` ultimately resolves to: the
response body, a rejected upstream response, or a rejected token
refresh (`refreshError`). -/
inductive CallResult where
  | success (body : String)
  | failure (status : Nat)
  | authFailure
deriving DecidableEq, Repr

/-- The response interceptor applied to a request whose `_retry` flag is
already set: it matches no branch, so the response passes through
(success) or its rejection propagates — even for a second 401. -/
def retriedResponseResult : HttpResp → CallResult
  | .ok b => .success b
  | .err s => .failure s

/-- Everything observable about one call sent through the interceptor:
its final result, how many upstream attempts were issued (the original
plus at most one retry), and the `Authorization` header placed on the
retried request, when one was issued. -/
structure RetryOutcome where
  result : CallResult
  attempts : Nat
  retriedAuth : Option String
deriving DecidableEq, Repr

/-- The axios response-interceptor flow for one request, unrolled: on a
401 with `_retry` unset, set `_retry`, clear `jwtToken`/`tokenExpiry`,
obtain a fresh token via `getJWTToken`, set the `Bearer` header and
re-issue the request (whose response, `resp2`, then passes through the
interceptor with `_retry` set); a failed refresh rejects with the
refresh error; any non-401 rejection passes through. Returns the
observable outcome and the final token cache. -/
def responseInterceptorFlow (st0 : TokenState) (now : Int) (resp1 : HttpResp)
    (fetchToken : Except Unit String) (resp2 : HttpResp) :
    RetryOutcome × TokenState :=
  match resp1 with
  | .ok b => ({ result := .success b, attempts := 1, retriedAuth := none }, st0)
  | .err s =>
    if s == 401 then
      let cleared : TokenState := { jwtToken := none, tokenExpiry := none }
      match getJWTToken cleared now fetchToken with
      | .ok (tok, st1) =>
        ({ result := retriedResponseResult resp2, attempts := 2,
           retriedAuth := some ("Bearer " ++ tok) }, st1)
      | .error _ =>
        ({ result := .authFailure, attempts := 1, retriedAuth := none }, cleared)
    else
      ({ result := .failure s, attempts := 1, retriedAuth := none }, st0)

/-! ## Concurrency model for `getJWTToken`

`getJWTToken` has a single suspension point: the `await axios.post` of
the credential exchange. A caller therefore runs in two phases against
the shared cache: (1) synchronously check the cache and, if no valid
token is present, issue a login request and suspend; (2) on resumption,
write the fetched token into the cache and return it. -/

/-- Phase 1 of a `getJWTToken` caller: the synchronous cache check.
Returns the cached token exactly when the validity condition of
`getJWTToken` holds, otherwise `none` (the caller issues a login and
suspends). -/
def cachedToken (st : TokenState) (now : Int) : Option String :=
  match st.jwtToken, st.tokenExpiry with
  | some t, some e => if t ≠ "" ∧ e ≠ 0 ∧ now < e then some t else none
  | some _, none => none
  | none, _ => none

/-- Observable trace of two concurrent `getJWTToken` callers A and B. -/
structure ConcTrace where
  logins : Nat
  resultA : String
  resultB : String
  finalState : TokenState
deriving DecidableEq, Repr

/-- Two concurrent `getJWTToken` calls under the interleaving
`A.check, B.check, A.resume, B.resume` (both callers reach their cache
check before either's login response arrives; each successful resume
writes its own fetched token `fA`/`fB` into the cache). `logins` counts
the upstream `POST /auth/token` requests issued. -/
def twoConcurrentGetJWTToken (st0 : TokenState) (now : Int) (fA fB : String) :
    ConcTrace :=
  match cachedToken st0 now with
  | some tA =>
    match cachedToken st0 now with
    | some tB => { logins := 0, resultA := tA, resultB := tB, finalState := st0 }
    | none =>
      { logins := 1, resultA := tA, resultB := fB,
        finalState := { jwtToken := some fB, tokenExpiry := some (fetchedExpiry now) } }
  | none =>
    match cachedToken st0 now with
    | some tB =>
      { logins := 1, resultA := fA, resultB := tB,
        finalState := { jwtToken := some fA, tokenExpiry := some (fetchedExpiry now) } }
    | none =>
      { logins := 2, resultA := fA, resultB := fB,
        finalState := { jwtToken := some fB, tokenExpiry := some (fetchedExpiry now) } }

/-! ## Gateway Service: the gate-checked trigger handler -/

/-- The JSON body of `POST /api/dags/:dagId/dagRuns`: an optional `conf`
object (modelled as a key/value list) and an optional `logical_date`. -/
structure TriggerBody where
  conf : Option (List (String × String))
  logical_date : Option Int
deriving DecidableEq, Repr

/-- The payload sent to the upstream trigger endpoint. `hasLogicalDate`
/ `hasConf` record whether the key is present in the JS object at all
(Airflow 2.x payloads omit absent keys). -/
structure TriggerPayload where
  hasLogicalDate : Bool
  logical_date : Option Int
  hasConf : Bool
  conf : List (String × String)
deriving DecidableEq, Repr

/-- Payload construction in the trigger handler. Airflow 3.x
(`USE_JWT_AUTH`): `{ logical_date: logical_date || null, conf: conf || {} }`
(JS `||` sends `null` for any falsy `logical_date`). Airflow 2.x: `{}`,
plus `conf` only when `conf && Object.keys(conf).length > 0`. -/
def buildTriggerPayload (useJwtAuth : Bool) (body : TriggerBody) : TriggerPayload :=
  if useJwtAuth then
    { hasLogicalDate := true,
      logical_date :=
        match body.logical_date with
        | some v => if v == 0 then none else some v
        | none => none,
      hasConf := true,
      conf := body.conf.getD [] }
  else
    match body.conf with
    | some c =>
      if c.length > 0 then
        { hasLogicalDate := false, logical_date := none, hasConf := true, conf := c }
      else
        { hasLogicalDate := false, logical_date := none, hasConf := false, conf := [] }
    | none =>
      { hasLogicalDate := false, logical_date := none, hasConf := false, conf := [] }

/-- Everything observable about one run of the trigger handler: the HTTP
status sent, whether the upstream trigger call was issued and with which
payload, the structured 409 details (the cooldown info or the blocking
run the conflict body is built from), and the upstream run record
returned on success. -/
structure HandlerResult where
  status : Nat
  upstreamCalled : Bool
  sentPayload : Option TriggerPayload
  conflictCooldown : Option CooldownInfo
  conflictRunning : Option DagRun
  runRecord : Option DagRun
deriving DecidableEq, Repr

/-- The handler of `POST /api/dags/:dagId/dagRuns`: re-evaluate the gate
via `isAnyDagRunning`; on `isRunning` answer 409 with the cooldown info
(cooldown case) or the first running DAG (`runningDags[0]`); otherwise
build the payload and issue the upstream trigger call (`upstreamPost`,
whose error carries `error.response?.status`, defaulted to 500 by
`error.response?.status || 500`). -/
def triggerDagRunsHandler (fetchResult : Except String (List DagRun)) (now : Int)
    (useJwtAuth : Bool) (body : TriggerBody)
    (upstreamPost : Except (Option Nat) DagRun) : HandlerResult :=
  let runningStatus := isAnyDagRunning fetchResult now
  if runningStatus.isRunning then
    if runningStatus.inCooldown then
      { status := 409, upstreamCalled := false, sentPayload := none,
        conflictCooldown := runningStatus.cooldownInfo,
        conflictRunning := none, runRecord := none }
    else
      { status := 409, upstreamCalled := false, sentPayload := none,
        conflictCooldown := none,
        conflictRunning := runningStatus.runningDags.head?, runRecord := none }
  else
    let payload := buildTriggerPayload useJwtAuth body
    match upstreamPost with
    | .ok data =>
      { status := 200, upstreamCalled := true, sentPayload := some payload,
        conflictCooldown := none, conflictRunning := none, runRecord := some data }
    | .error s =>
      { status := s.getD 500, upstreamCalled := true, sentPayload := some payload,
        conflictCooldown := none, conflictRunning := none, runRecord := none }

/-! ## Theorems -/

/-- `r` precedes (or ties) `s` in the upstream's `-start_date` ordering:
whenever both records carry a start date, `r` started no earlier than
`s` (records without a start date impose no constraint). -/
def startDescB (r s : DagRun) : Bool :=
  match r.start_date, s.start_date with
  | some a, some b => b ≤ a
  | _, _ => true

lemma startDescB_refl (r : DagRun) : startDescB r r = true := by
  unfold startDescB
  cases r.start_date <;> simp

/-- In a start-descending list containing an active record, the head of
the active filter is an active record of the list that started no
earlier than any other active record. -/
lemma head_filter_isActive_spec (l : List DagRun)
    (hsorted : l.Pairwise (fun r s => startDescB r s = true))
    (hex : ∃ r ∈ l, isActiveRun r = true) :
    ∃ b, (l.filter isActiveRun).head? = some b ∧ isActiveRun b = true ∧
      b ∈ l ∧ ∀ r ∈ l, isActiveRun r = true → startDescB b r = true := by
  induction l with
  | nil => simp at hex
  | cons x xs ih =>
    obtain ⟨hx, hxs⟩ := List.pairwise_cons.mp hsorted
    by_cases hpx : isActiveRun x = true
    · refine ⟨x, ?_, hpx, List.mem_cons_self x xs, ?_⟩
      · simp [List.filter_cons, hpx]
      · intro r hr _
        rcases List.mem_cons.mp hr with h | h
        · rw [h]
          exact startDescB_refl x
        · exact hx r h
    · have hex' : ∃ r ∈ xs, isActiveRun r = true := by
        obtain ⟨r, hr, hract⟩ := hex
        rcases List.mem_cons.mp hr with h | h
        · rw [h] at hract
          exact absurd hract hpx
        · exact ⟨r, h, hract⟩
      obtain ⟨b, hb1, hb2, hb3, hb4⟩ := ih hxs hex'
      refine ⟨b, ?_, hb2, List.mem_cons_of_mem x hb3, ?_⟩
      · simpa [List.filter_cons, hpx] using hb1
      · intro r hr hract
        rcases List.mem_cons.mp hr with h | h
        · rw [h] at hract
          exact absurd hract hpx
        · exact hb4 r h hract

/-- C1: for every record list (in the upstream's descending start-date
order) containing at least one active record (state `running` or
`queued`), the gate reports `isRunning = true` with reason `running`
(not cooldown), regardless of any terminal records also present, and
the first reported running DAG — the one the 409 body is built from —
is an active record that started no earlier than any other active
record. -/
theorem c1_activeRunBlocks (runs : List DagRun) (now : Int)
    (hsorted : runs.Pairwise (fun r s => startDescB r s = true))
    (hex : ∃ r ∈ runs, isActiveRun r = true) :
    (isAnyDagRunningPure runs now).isRunning = true ∧
    (isAnyDagRunningPure runs now).reason = some "running" ∧
    (isAnyDagRunningPure runs now).inCooldown = false ∧
    ∃ b, (isAnyDagRunningPure runs now).runningDags.head? = some b ∧
      isActiveRun b = true ∧ b ∈ runs ∧
      ∀ r ∈ runs, isActiveRun r = true → startDescB b r = true := by
  obtain ⟨b, hb1, hb2, hb3, hb4⟩ := head_filter_isActive_spec runs hsorted hex
  have hne : runs.filter isActiveRun ≠ [] := by
    intro hnil
    rw [hnil] at hb1
    simp at hb1
  have hlen : (runs.filter isActiveRun).length > 0 := List.length_pos.mpr hne
  simp only [isAnyDagRunningPure]
  rw [if_pos hlen]
  exact ⟨rfl, rfl, rfl, b, hb1, hb2, hb3, hb4⟩

/-- Concrete scenario for C1: one queued and one running record (the
running one started later) with a recently completed terminal record in
between. -/
def c1Runs : List DagRun :=
  [{ dag_id := "d1", dag_run_id := "r1", state := "running",
     start_date := some 200000, end_date := none, logical_date := none },
   { dag_id := "d3", dag_run_id := "r3", state := "success",
     start_date := some 150000, end_date := some 160000, logical_date := none },
   { dag_id := "d2", dag_run_id := "r2", state := "queued",
     start_date := some 100000, end_date := none, logical_date := none }]

/-- Witness for C1 at `c1Runs`, `now = 161000` (inside what would be the
cooldown window of the terminal record — the active run still wins). -/
theorem c1_witness :
    (isAnyDagRunningPure c1Runs 161000).isRunning = true ∧
    (isAnyDagRunningPure c1Runs 161000).reason = some "running" ∧
    (isAnyDagRunningPure c1Runs 161000).inCooldown = false ∧
    ∃ b, (isAnyDagRunningPure c1Runs 161000).runningDags.head? = some b ∧
      isActiveRun b = true ∧ b ∈ c1Runs ∧
      ∀ r ∈ c1Runs, isActiveRun r = true → startDescB b r = true :=
  c1_activeRunBlocks c1Runs 161000 (by decide)
    ⟨c1Runs.head (by decide), by decide, by decide⟩

/-- C6: with no active record, and every terminal record's end time (when
present) at least the cooldown period before `now`, the gate allows. -/
theorem c6_noActiveNoRecentTerminalAllows (runs : List DagRun) (now : Int)
    (hnoactive : ∀ r ∈ runs, isActiveRun r = false)
    (hold : ∀ r ∈ runs, isCompletedRun r = true →
      ∀ e, r.end_date = some e → e + cooldownPeriod ≤ now) :
    isAnyDagRunningPure runs now = notRunningStatus := by
  have hfa : runs.filter isActiveRun = [] :=
    List.filter_eq_nil_iff.mpr (fun r hr => by simp [hnoactive r hr])
  simp only [isAnyDagRunningPure, hfa]
  rw [if_neg (by simp)]
  cases hfc : runs.filter isCompletedRun with
  | nil => simp [cooldownCheck]
  | cons r rest =>
    have hrmem : r ∈ runs :=
      List.mem_of_mem_filter (p := isCompletedRun) (by rw [hfc]; exact List.mem_cons_self r rest)
    have hrcomp : isCompletedRun r = true :=
      List.of_mem_filter (by rw [hfc]; exact List.mem_cons_self r rest)
    simp only [cooldownCheck]
    cases hend : r.end_date with
    | none => rfl
    | some e =>
      have h := hold r hrmem hrcomp e hend
      have hnotlt : ¬(now - e < cooldownPeriod) := by omega
      simp [hnotlt]

/-- Witness for C6 at the empty record list (both hypotheses vacuous):
`records = []` yields the allowed status. -/
theorem c6_witness : isAnyDagRunningPure [] 123456 = notRunningStatus :=
  c6_noActiveNoRecentTerminalAllows [] 123456 (by simp) (by simp)

/-- C9: with no active record, if the first terminal record of the
(start-date-descending) list has no `end_date`, the cooldown check is
skipped entirely and the gate allows. -/
theorem c9_nullEndDateSkipsCooldown (runs : List DagRun) (now : Int) (r : DagRun)
    (hnoactive : ∀ x ∈ runs, isActiveRun x = false)
    (hhead : (runs.filter isCompletedRun).head? = some r)
    (hend : r.end_date = none) :
    isAnyDagRunningPure runs now = notRunningStatus := by
  have hfa : runs.filter isActiveRun = [] :=
    List.filter_eq_nil_iff.mpr (fun x hx => by simp [hnoactive x hx])
  obtain ⟨rest, hfc⟩ := List.head?_eq_some_iff.mp hhead
  simp only [isAnyDagRunningPure, hfa]
  rw [if_neg (by simp)]
  simp only [cooldownCheck, hfc, hend]

/-- Concrete scenario for C9: the most recently started terminal record
has a null `end_date`, while an older terminal record ended one second
before `now` (well inside the cooldown window). -/
def c9Runs : List DagRun :=
  [{ dag_id := "d1", dag_run_id := "r1", state := "success",
     start_date := some 500000, end_date := none, logical_date := none },
   { dag_id := "d2", dag_run_id := "r2", state := "failed",
     start_date := some 400000, end_date := some 999000, logical_date := none }]

/-- Witness for C9 at `c9Runs`, `now = 1000000`: allowed despite the
second terminal record having ended within the cooldown window. -/
theorem c9_witness :
    ((c9Runs.get ⟨1, by decide⟩).end_date = some 999000 ∧
      (1000000 : Int) - 999000 < cooldownPeriod) ∧
    isAnyDagRunningPure c9Runs 1000000 = notRunningStatus :=
  ⟨by decide,
   c9_nullEndDateSkipsCooldown c9Runs 1000000 (c9Runs.head (by decide))
     (by decide) (by decide) (by decide)⟩

/-- Two terminal records in descending start-date order: `c2RunA`
started later but ended long ago; `c2RunB` started earlier but ended
one second before `now = 1000000` (a long-running DAG). The terminal
record with the most recent `end_date` is `c2RunB`, yet the gate
inspects `completedDagRuns[0] = c2RunA`. -/
def c2RunA : DagRun :=
  { dag_id := "dagA", dag_run_id := "rA", state := "success",
    start_date := some 500000, end_date := some 0, logical_date := none }

def c2RunB : DagRun :=
  { dag_id := "dagB", dag_run_id := "rB", state := "success",
    start_date := some 400000, end_date := some 999000, logical_date := none }

def c2Runs : List DagRun := [c2RunA, c2RunB]

/-- C2 counterexample: at `c2Runs`/`now = 1000000` there is no active
record, both records are terminal, the most recent `end_date` (999000,
on `c2RunB`) is within the cooldown window — so the claim demands
`allowed = false` with reason cooldown — yet the gate allows, because it
inspects the most recently *started* terminal record `c2RunA` (first in
the descending start-date order), whose `end_date` 0 is outside the
window. -/
theorem c2_counterexample :
    (∀ r ∈ c2Runs, isActiveRun r = false) ∧
    (∀ r ∈ c2Runs, isCompletedRun r = true) ∧
    c2RunA.start_date = some 500000 ∧ c2RunB.start_date = some 400000 ∧
    c2RunA.end_date = some 0 ∧ c2RunB.end_date = some 999000 ∧
    (1000000 : Int) - 999000 < cooldownPeriod ∧
    ¬((1000000 : Int) - 0 < cooldownPeriod) ∧
    isAnyDagRunningPure c2Runs 1000000 = notRunningStatus := by decide

/-- C2 as amended: with no active record and at least one terminal
record, the gate selects the *first* terminal record of the
start-date-descending list (the most recently started one, not the one
with the most recent `endedAt`); if that record carries an `end_date`
and `elapsed = now - endedAt < cooldown`, it blocks with the cooldown
reason, that record's identity in the cooldown info, and
`remaining_cooldown_minutes = ⌈(cooldown - elapsed) in minutes⌉`. -/
theorem c2_amendedCooldownBlocks (runs : List DagRun) (now : Int) (r : DagRun) (e : Int)
    (hnoactive : ∀ x ∈ runs, isActiveRun x = false)
    (hhead : (runs.filter isCompletedRun).head? = some r)
    (hend : r.end_date = some e)
    (hlt : now - e < cooldownPeriod) :
    isAnyDagRunningPure runs now =
      { isRunning := true, count := 0, runningDags := [], inCooldown := true,
        cooldownInfo := some
          { last_dag_id := r.dag_id, last_dag_state := r.state, end_date := e,
            minutes_since_completion := jsFloorDivMinutes (now - e),
            remaining_cooldown_minutes :=
              jsCeilDivMinutes (cooldownPeriod - (now - e)) },
        reason := some "cooldown" } := by
  have hfa : runs.filter isActiveRun = [] :=
    List.filter_eq_nil_iff.mpr (fun x hx => by simp [hnoactive x hx])
  obtain ⟨rest, hfc⟩ := List.head?_eq_some_iff.mp hhead
  simp only [isAnyDagRunningPure, hfa]
  rw [if_neg (by simp)]
  simp only [cooldownCheck, hfc, hend]
  rw [if_pos hlt]

/-- The record of the amended-C2 witness scenario: a single failed run
that ended five minutes before `now = 1000000`. -/
def c2WitnessRun : DagRun :=
  { dag_id := "d", dag_run_id := "r", state := "failed",
    start_date := some 10000, end_date := some 700000, logical_date := none }

/-- Witness for the amended C2: a single failed record that ended five
minutes before `now`; the gate blocks with 10 remaining minutes. -/
theorem c2_amended_witness :
    isAnyDagRunningPure [c2WitnessRun] 1000000 =
      { isRunning := true, count := 0, runningDags := [], inCooldown := true,
        cooldownInfo := some
          { last_dag_id := "d", last_dag_state := "failed", end_date := 700000,
            minutes_since_completion := jsFloorDivMinutes (1000000 - 700000),
            remaining_cooldown_minutes :=
              jsCeilDivMinutes (cooldownPeriod - (1000000 - 700000)) },
        reason := some "cooldown" } :=
  c2_amendedCooldownBlocks [c2WitnessRun] 1000000 c2WitnessRun 700000 (by decide)
    (by decide) (by decide) (by decide)

/-- C7: with no active record and the inspected terminal record carrying
`end_date = e`, the gate's block/allow decision compares the unrounded
millisecond duration `now - e` against the cooldown; rounding appears
only in the displayed cooldown info, as `⌊elapsed⌋` and
`⌈cooldown - elapsed⌉` whole minutes. -/
theorem c7_unroundedComparisonRoundedDisplay (runs : List DagRun) (now : Int)
    (r : DagRun) (e : Int)
    (hnoactive : ∀ x ∈ runs, isActiveRun x = false)
    (hhead : (runs.filter isCompletedRun).head? = some r)
    (hend : r.end_date = some e) :
    ((isAnyDagRunningPure runs now).isRunning = true ↔ now - e < cooldownPeriod) ∧
    (now - e < cooldownPeriod →
      (isAnyDagRunningPure runs now).cooldownInfo = some
        { last_dag_id := r.dag_id, last_dag_state := r.state, end_date := e,
          minutes_since_completion := jsFloorDivMinutes (now - e),
          remaining_cooldown_minutes :=
            jsCeilDivMinutes (cooldownPeriod - (now - e)) }) ∧
    (¬(now - e < cooldownPeriod) → isAnyDagRunningPure runs now = notRunningStatus) := by
  have hfa : runs.filter isActiveRun = [] :=
    List.filter_eq_nil_iff.mpr (fun x hx => by simp [hnoactive x hx])
  obtain ⟨rest, hfc⟩ := List.head?_eq_some_iff.mp hhead
  simp only [isAnyDagRunningPure, hfa]
  rw [if_neg (by simp)]
  simp only [cooldownCheck, hfc, hend]
  by_cases hlt : now - e < cooldownPeriod
  · rw [if_pos hlt]
    exact ⟨by simp [hlt], fun _ => rfl, fun h => absurd hlt h⟩
  · rw [if_neg hlt]
    refine ⟨?_, fun h => absurd h hlt, fun _ => rfl⟩
    simp [notRunningStatus, hlt]

/-- The spec's 5-minute scenario: one successful record that ended at
700000, inspected at `now = 1000000` (five minutes later). -/
def c7Runs : List DagRun :=
  [{ dag_id := "dag1", dag_run_id := "run1", state := "success",
     start_date := some 100000, end_date := some 700000, logical_date := none }]

/-- Witness for C7: the spec's 5-minute scenario — a terminal record
ended five minutes before `now`, cooldown 15 minutes: blocked, with the
displayed values `minutes_since_completion = 5` and
`remaining_cooldown_minutes = 10`. -/
theorem c7_witness :
    ((isAnyDagRunningPure c7Runs 1000000).isRunning = true ↔
      (1000000 : Int) - 700000 < cooldownPeriod) ∧
    ((isAnyDagRunningPure c7Runs 1000000).cooldownInfo = some
      { last_dag_id := "dag1", last_dag_state := "success", end_date := 700000,
        minutes_since_completion := jsFloorDivMinutes (1000000 - 700000),
        remaining_cooldown_minutes :=
          jsCeilDivMinutes (cooldownPeriod - (1000000 - 700000)) }) ∧
    jsFloorDivMinutes (1000000 - 700000) = 5 ∧
    jsCeilDivMinutes (cooldownPeriod - (1000000 - 700000)) = 10 :=
  have h := c7_unroundedComparisonRoundedDisplay c7Runs 1000000
    (c7Runs.head (by decide)) 700000 (by decide) (by decide) (by decide)
  ⟨h.1, h.2.1 (by decide), by decide, by decide⟩

/-- C3: the trigger handler re-evaluates the gate on its own fetch of
the records (the decision below is a function of this request's
`fetchResult`/`now`, not of any cached status). If the evaluation is
blocked, the handler answers 409 carrying the gate's fields (cooldown
info in the cooldown case, the first running DAG otherwise) and issues
no upstream trigger call; if it allows, the upstream trigger call is
issued with the built payload, a 2xx response's run record is returned
with status 200, and an upstream rejection's status is passed through
(500 when the error carries none). -/
theorem c3_triggerGateCheckedFreshly (fetchResult : Except String (List DagRun))
    (now : Int) (useJwtAuth : Bool) (body : TriggerBody)
    (up : Except (Option Nat) DagRun) :
    ((isAnyDagRunning fetchResult now).isRunning = true →
      (triggerDagRunsHandler fetchResult now useJwtAuth body up).status = 409 ∧
      (triggerDagRunsHandler fetchResult now useJwtAuth body up).upstreamCalled = false ∧
      ((isAnyDagRunning fetchResult now).inCooldown = true →
        (triggerDagRunsHandler fetchResult now useJwtAuth body up).conflictCooldown =
          (isAnyDagRunning fetchResult now).cooldownInfo) ∧
      ((isAnyDagRunning fetchResult now).inCooldown = false →
        (triggerDagRunsHandler fetchResult now useJwtAuth body up).conflictRunning =
          (isAnyDagRunning fetchResult now).runningDags.head?)) ∧
    ((isAnyDagRunning fetchResult now).isRunning = false →
      (triggerDagRunsHandler fetchResult now useJwtAuth body up).upstreamCalled = true ∧
      (triggerDagRunsHandler fetchResult now useJwtAuth body up).sentPayload =
        some (buildTriggerPayload useJwtAuth body) ∧
      (∀ d, up = .ok d →
        (triggerDagRunsHandler fetchResult now useJwtAuth body up).status = 200 ∧
        (triggerDagRunsHandler fetchResult now useJwtAuth body up).runRecord = some d) ∧
      (∀ s, up = .error s →
        (triggerDagRunsHandler fetchResult now useJwtAuth body up).status = s.getD 500 ∧
        (triggerDagRunsHandler fetchResult now useJwtAuth body up).runRecord = none)) := by
  constructor
  · intro hrun
    by_cases hcd : (isAnyDagRunning fetchResult now).inCooldown = true
    · refine ⟨?_, ?_, fun _ => ?_, fun hcd2 => ?_⟩ <;>
        simp_all [triggerDagRunsHandler]
    · have hcd' : (isAnyDagRunning fetchResult now).inCooldown = false := by
        simpa using hcd
      refine ⟨?_, ?_, fun hcd2 => ?_, fun _ => ?_⟩ <;>
        simp_all [triggerDagRunsHandler]
  · intro hrun
    cases up with
    | ok d =>
      refine ⟨?_, ?_, fun d2 hd2 => ?_, fun s hs => ?_⟩ <;> simp_all [triggerDagRunsHandler]
    | error s =>
      refine ⟨?_, ?_, fun d2 hd2 => ?_, fun s2 hs2 => ?_⟩ <;> simp_all [triggerDagRunsHandler]

/-- The upstream run record returned in the C3 witness scenario. -/
def c3NewRun : DagRun :=
  { dag_id := "dagX", dag_run_id := "newRun", state := "queued",
    start_date := none, end_date := none, logical_date := none }

/-- Witness for C3: with an empty record window the gate allows, the
upstream trigger call is issued, and its run record comes back with
status 200; with an active record present, the handler answers 409
without calling upstream. -/
theorem c3_witness :
    ((isAnyDagRunning (.ok []) 1000).isRunning = false ∧
      (triggerDagRunsHandler (.ok []) 1000 true ⟨none, none⟩ (.ok c3NewRun)).upstreamCalled
        = true ∧
      (triggerDagRunsHandler (.ok []) 1000 true ⟨none, none⟩ (.ok c3NewRun)).status = 200 ∧
      (triggerDagRunsHandler (.ok []) 1000 true ⟨none, none⟩ (.ok c3NewRun)).runRecord =
        some c3NewRun) ∧
    ((isAnyDagRunning (.ok c1Runs) 161000).isRunning = true ∧
      (triggerDagRunsHandler (.ok c1Runs) 161000 true ⟨none, none⟩ (.ok c3NewRun)).status
        = 409 ∧
      (triggerDagRunsHandler (.ok c1Runs) 161000 true ⟨none, none⟩
        (.ok c3NewRun)).upstreamCalled = false) := by
  have hallow := (c3_triggerGateCheckedFreshly (.ok []) 1000 true ⟨none, none⟩
    (.ok c3NewRun)).2 (by decide)
  have hblock := (c3_triggerGateCheckedFreshly (.ok c1Runs) 161000 true ⟨none, none⟩
    (.ok c3NewRun)).1 (by decide)
  exact ⟨⟨by decide, hallow.1, (hallow.2.2.1 c3NewRun rfl).1, (hallow.2.2.1 c3NewRun rfl).2⟩,
    ⟨by decide, hblock.1, hblock.2.1⟩⟩

/-- C4: when the record fetch fails, `isAnyDagRunning` fails open — its
catch block returns exactly the decision of the empty record window
(not running, no cooldown) — and a trigger request under a failed fetch
therefore proceeds to the upstream trigger call. -/
theorem c4_failOpenOnFetchError (e : String) (now : Int) (useJwtAuth : Bool)
    (body : TriggerBody) (up : Except (Option Nat) DagRun) :
    isAnyDagRunning (.error e) now = isAnyDagRunning (.ok []) now ∧
    (isAnyDagRunning (.error e) now).isRunning = false ∧
    (isAnyDagRunning (.error e) now).inCooldown = false ∧
    (triggerDagRunsHandler (.error e) now useJwtAuth body up).upstreamCalled = true := by
  refine ⟨rfl, rfl, rfl, ?_⟩
  cases up <;> simp [triggerDagRunsHandler, isAnyDagRunning, notRunningStatus]

/-- C5: the response interceptor issues at most two upstream attempts.
On a first 401 with a successful refresh, the cached credential is
cleared and replaced by the freshly fetched token, the same call is
re-issued exactly once bearing that fresh token, and the retried
response passes through unchanged — so a second consecutive 401
propagates as a hard failure after exactly two attempts. A failed
refresh propagates after the single original attempt with the cache
left invalidated, and a non-401 rejection is never retried. -/
theorem c5_retryExactlyOnceOn401 (st0 : TokenState) (now : Int) (resp1 : HttpResp)
    (fetchToken : Except Unit String) (resp2 : HttpResp) :
    (responseInterceptorFlow st0 now resp1 fetchToken resp2).1.attempts ≤ 2 ∧
    (∀ tok, resp1 = .err 401 → fetchToken = .ok tok →
      responseInterceptorFlow st0 now resp1 fetchToken resp2 =
        ({ result := retriedResponseResult resp2, attempts := 2,
           retriedAuth := some ("Bearer " ++ tok) },
         { jwtToken := some tok, tokenExpiry := some (fetchedExpiry now) })) ∧
    (resp1 = .err 401 → resp2 = .err 401 → (∃ tok, fetchToken = .ok tok) →
      (responseInterceptorFlow st0 now resp1 fetchToken resp2).1.result = .failure 401 ∧
      (responseInterceptorFlow st0 now resp1 fetchToken resp2).1.attempts = 2) ∧
    (∀ err, resp1 = .err 401 → fetchToken = .error err →
      responseInterceptorFlow st0 now resp1 fetchToken resp2 =
        ({ result := .authFailure, attempts := 1, retriedAuth := none },
         { jwtToken := none, tokenExpiry := none })) ∧
    (∀ s, resp1 = .err s → s ≠ 401 →
      (responseInterceptorFlow st0 now resp1 fetchToken resp2).1.attempts = 1 ∧
      (responseInterceptorFlow st0 now resp1 fetchToken resp2).1.result = .failure s) := by
  refine ⟨?_, ?_, ?_, ?_, ?_⟩
  · cases resp1 with
    | ok b => simp [responseInterceptorFlow]
    | err s =>
      by_cases h401 : s = 401
      · subst h401
        cases fetchToken with
        | ok tok => simp [responseInterceptorFlow, getJWTToken]
        | error err => simp [responseInterceptorFlow, getJWTToken]
      · simp [responseInterceptorFlow, h401]
  · intro tok h1 h2
    subst h1; subst h2
    rfl
  · intro h1 h2 ⟨tok, h3⟩
    subst h1; subst h2; subst h3
    exact ⟨rfl, rfl⟩
  · intro err h1 h2
    subst h1; subst h2
    rfl
  · intro s h1 h2
    subst h1
    have : (s == 401) = false := by simpa using h2
    simp [responseInterceptorFlow, this]

/-- Witness for C5: starting from a stale cached token, a 401 followed
by a successful refresh and a second 401: exactly two attempts, the
retried call bears the fresh token, and the result is the hard 401
failure; plus the failed-refresh and non-401 corners. -/
theorem c5_witness :
    responseInterceptorFlow ⟨some "stale", some 9999999⟩ 1000 (.err 401)
        (.ok "fresh") (.err 401) =
      ({ result := .failure 401, attempts := 2,
         retriedAuth := some ("Bearer " ++ "fresh") },
       { jwtToken := some "fresh", tokenExpiry := some (fetchedExpiry 1000) }) ∧
    responseInterceptorFlow ⟨some "stale", some 9999999⟩ 1000 (.err 401)
        (.error ()) (.ok "late") =
      ({ result := .authFailure, attempts := 1, retriedAuth := none },
       { jwtToken := none, tokenExpiry := none }) ∧
    (responseInterceptorFlow ⟨some "stale", some 9999999⟩ 1000 (.err 500)
        (.ok "fresh") (.ok "body")).1.attempts = 1 :=
  ⟨(c5_retryExactlyOnceOn401 ⟨some "stale", some 9999999⟩ 1000 (.err 401)
      (.ok "fresh") (.err 401)).2.1 "fresh" rfl rfl,
   (c5_retryExactlyOnceOn401 ⟨some "stale", some 9999999⟩ 1000 (.err 401)
      (.error ()) (.ok "late")).2.2.2.1 () rfl rfl,
   ((c5_retryExactlyOnceOn401 ⟨some "stale", some 9999999⟩ 1000 (.err 500)
      (.ok "fresh") (.ok "body")).2.2.2.2 500 rfl (by decide)).1⟩

/-- C8: `getJWTToken` returns the cached credential exactly when the
current time is strictly before the stored expiry (for a genuinely
cached state: non-empty token, non-zero expiry); when the expiry has
passed, and always when the token has been invalidated (cleared), it
performs a fresh exchange and caches the new token with expiry 23 hours
(one hour of margin on a 24-hour token) after acquisition; a failed
exchange propagates. -/
theorem c8_tokenCacheValidity (st : TokenState) (now : Int)
    (fetchToken : Except Unit String) :
    (∀ t e, st.jwtToken = some t → st.tokenExpiry = some e → t ≠ "" → e ≠ 0 →
      (getJWTToken st now fetchToken = .ok (t, st) ↔ now < e)) ∧
    (∀ t e tok, st.jwtToken = some t → st.tokenExpiry = some e → ¬(now < e) →
      fetchToken = .ok tok →
      getJWTToken st now fetchToken =
        .ok (tok, { jwtToken := some tok, tokenExpiry := some (fetchedExpiry now) })) ∧
    (st.jwtToken = none → ∀ tok, fetchToken = .ok tok →
      getJWTToken st now fetchToken =
        .ok (tok, { jwtToken := some tok, tokenExpiry := some (fetchedExpiry now) })) ∧
    (st.jwtToken = none → ∀ err, fetchToken = .error err →
      getJWTToken st now fetchToken = .error err) := by
  refine ⟨?_, ?_, ?_, ?_⟩
  · intro t e ht he hne hnz
    constructor
    · intro heq
      by_contra hnlt
      simp only [getJWTToken.eq_def, ht, he] at heq
      rw [if_neg (by tauto)] at heq
      cases hf : fetchToken with
      | ok tok =>
        rw [hf] at heq
        simp only [Except.ok.injEq, Prod.mk.injEq] at heq
        have hst := heq.2
        have hexp : st.tokenExpiry = some (fetchedExpiry now) := by rw [← hst]
        rw [he] at hexp
        have hee : e = fetchedExpiry now := by simpa using hexp
        simp only [fetchedExpiry] at hee
        omega
      | error err =>
        rw [hf] at heq
        simp at heq
    · intro hlt
      simp only [getJWTToken.eq_def, ht, he]
      rw [if_pos ⟨hne, hnz, hlt⟩]
  · intro t e tok ht he hnlt hf
    simp only [getJWTToken.eq_def, ht, he, hf]
    rw [if_neg (by tauto)]
  · intro hnone tok hf
    simp only [getJWTToken.eq_def, hnone, hf]
  · intro hnone err hf
    simp only [getJWTToken.eq_def, hnone, hf]

/-- Witness for C8: a cached state before expiry returns the cache; the
same state past expiry re-exchanges; the cleared (invalidated) state
always re-exchanges; a failed exchange on the cleared state errors. -/
theorem c8_witness :
    getJWTToken ⟨some "tok", some 100⟩ 50 (.ok "new") =
      .ok ("tok", ⟨some "tok", some 100⟩) ∧
    getJWTToken ⟨some "tok", some 100⟩ 100 (.ok "new") =
      .ok ("new", ⟨some "new", some (fetchedExpiry 100)⟩) ∧
    getJWTToken ⟨none, none⟩ 50 (.ok "new") =
      .ok ("new", ⟨some "new", some (fetchedExpiry 50)⟩) ∧
    getJWTToken ⟨none, none⟩ 50 (.error ()) = .error () :=
  ⟨((c8_tokenCacheValidity ⟨some "tok", some 100⟩ 50 (.ok "new")).1 "tok" 100 rfl rfl
      (by decide) (by decide)).mpr (by decide),
   (c8_tokenCacheValidity ⟨some "tok", some 100⟩ 100 (.ok "new")).2.1 "tok" 100 "new"
     rfl rfl (by decide) rfl,
   (c8_tokenCacheValidity ⟨none, none⟩ 50 (.ok "new")).2.2.1 rfl "new" rfl,
   (c8_tokenCacheValidity ⟨none, none⟩ 50 (.error ())).2.2.2 rfl () rfl⟩

/-- C10 counterexample: two concurrent `getJWTToken` calls from the
empty cache, interleaved so both check before either login completes,
issue two upstream login requests — not the single coalesced one the
claim requires. -/
theorem c10_counterexample :
    (twoConcurrentGetJWTToken ⟨none, none⟩ 0 "tokenA" "tokenB").logins = 2 ∧
    ¬((twoConcurrentGetJWTToken ⟨none, none⟩ 0 "tokenA" "tokenB").logins ≤ 1) := by
  decide

/-- C10 as amended: `getJWTToken` has no single-flight protection.
Whenever no valid credential is cached, the interleaving in which both
concurrent callers reach their cache check before either login response
arrives makes each caller issue its own login request (two callers, two
logins); each caller returns its own fetched token and the later
completer's token overwrites the cache. -/
theorem c10_amendedNoCoalescing (st0 : TokenState) (now : Int) (fA fB : String)
    (hinvalid : cachedToken st0 now = none) :
    twoConcurrentGetJWTToken st0 now fA fB =
      { logins := 2, resultA := fA, resultB := fB,
        finalState := { jwtToken := some fB,
                        tokenExpiry := some (fetchedExpiry now) } } := by
  rw [twoConcurrentGetJWTToken, hinvalid]

/-- Witness for the amended C10 at the empty cache. -/
theorem c10_amended_witness :
    cachedToken ⟨none, none⟩ 0 = none ∧
    twoConcurrentGetJWTToken ⟨none, none⟩ 0 "ta" "tb" =
      { logins := 2, resultA := "ta", resultB := "tb",
        finalState := { jwtToken := some "tb",
                        tokenExpiry := some (fetchedExpiry 0) } } :=
  ⟨rfl, c10_amendedNoCoalescing ⟨none, none⟩ 0 "ta" "tb" rfl⟩

end FaultGateway
